import Mathlib

/-!
Shallow embedding of `model/train.py` (nvidia-gpu-volcano-k8s).

The script collects environment telemetry, runs one TensorFlow training
call, assembles a JSON run report and uploads it to S3, falling back to a
local file write when no client is available or the upload raises.

Modelling conventions:
* JSON-serializable Python values are the inductive `J`; a Python dict is
  an association list `Dict` in insertion order, with `dictSet` mirroring
  `d[k] = v` (replace in place if the key exists, append otherwise) and
  `dictUpdate` mirroring `d.update({...})`.
* Every external effect (file reads, the metadata endpoint, the
  `nvidia-smi` subprocess, TensorFlow calls, `model.fit`, `boto3`) is an
  input supplied by an environment structure; a fallible call is an
  `Except String` value carrying either the result or the exception text.
* The local filesystem is an association list from filename to the JSON
  document written there; `json.dump` is modelled as storing the document
  value itself.
* Python float loss values are opaque: nothing in the script computes with
  them, they are only copied, so they are modelled as `Int` codes.  The
  float quotient `cpu_quota / cpu_period` is modelled exactly by the
  constructor `J.quot` holding numerator and denominator.
-/

/-- JSON-serializable Python values. `quot a b` models the float `a / b`
produced by Python true division (only used for `cpu_limit_cores`). -/
inductive J where
  | s (v : String)
  | n (v : Int)
  | b (v : Bool)
  | quot (a b : Int)
  | arr (vs : List J)
  | obj (fields : List (String × J))

/-- A Python dict with string keys, in insertion order. -/
abbrev Dict := List (String × J)

/-- Python `d[k] = v`: replace the value in place when the key is present,
append the pair otherwise (CPython insertion-order semantics). -/
def dictSet (d : Dict) (k : String) (v : J) : Dict :=
  if d.any (fun p => p.1 == k) then
    d.map (fun p => if p.1 == k then (k, v) else p)
  else d ++ [(k, v)]

/-- Python `d.update({...})`: sequential `dictSet` in the literal's order. -/
def dictUpdate (d : Dict) (kvs : List (String × J)) : Dict :=
  kvs.foldl (fun acc p => dictSet acc p.1 p.2) d

/-- The local filesystem: filename to last JSON document written there. -/
abbrev FS := List (String × Dict)

/-- Python `open(filename, 'w'); json.dump(data, f)`: overwrite `filename`. -/
def fsWrite (fs : FS) (filename : String) (data : Dict) : FS :=
  (filename, data) :: fs

/-- Contents of the most recent write to `filename`, if any. -/
def fsRead (fs : FS) (filename : String) : Option Dict :=
  fs.lookup filename

/-- Python `pat in s` on char lists (substring test). -/
def listHasSub (pat : List Char) : List Char → Bool
  | [] => pat.isEmpty
  | c :: cs => pat.isPrefixOf (c :: cs) || listHasSub pat cs

/-- Python `pat in s` for strings. -/
def pyContains (s pat : String) : Bool := listHasSub pat.data s.data

/-- Python `s.count(pat)` for a non-empty pattern: non-overlapping
occurrences scanned from the left. -/
def countOccur (pat : List Char) : List Char → Nat
  | [] => 0
  | c :: cs =>
    if pat.isPrefixOf (c :: cs) then
      countOccur pat (List.drop (pat.length - 1) cs) + 1
    else countOccur pat cs
termination_by l => l.length
decreasing_by
  · simp only [List.length_drop, List.length_cons]; omega
  · simp only [List.length_cons]; omega

/-- Python `s.count(pat)` for strings (pattern non-empty in all uses). -/
def pyCount (s pat : String) : Nat := countOccur pat.data s.data

/-- Python `s.split()` (no argument): split on whitespace runs,
dropping empty pieces. -/
def pySplitWs (s : String) : List String :=
  (s.split (fun c => c.isWhitespace)).filter (fun x => x ≠ "")

/-- Decimal value of a list of digit characters. -/
def digitsVal (cs : List Char) : Int :=
  ((cs.foldl (fun a c => a * 10 + (c.toNat - 48)) 0 : Nat) : Int)

/-- Python `int(s)`: strip whitespace, optional sign, decimal digits;
`none` models the `ValueError` raised on any other input. -/
def pyInt (s : String) : Option Int :=
  match (s.trim).data with
  | [] => none
  | c :: cs =>
    if c = '-' then
      if cs ≠ [] ∧ cs.all Char.isDigit then some (-(digitsVal cs)) else none
    else if c = '+' then
      if cs ≠ [] ∧ cs.all Char.isDigit then some (digitsVal cs) else none
    else if (c :: cs).all Char.isDigit then some (digitsVal (c :: cs)) else none

/-- A wall-clock instant as used by `datetime.now().strftime`. -/
structure DateTime where
  year : Nat
  month : Nat
  day : Nat
  hour : Nat
  minute : Nat
  second : Nat
  deriving DecidableEq

/-- Last decimal digit of `n` as a character. -/
def digit (n : Nat) : Char := Nat.digitChar (n % 10)

/-- The 15 characters of `strftime("%Y%m%d_%H%M%S")` for an in-range
datetime (year 1000-9999, two-digit zero-padded remaining fields). -/
def strftimeChars (t : DateTime) : List Char :=
  [digit (t.year / 1000), digit (t.year / 100), digit (t.year / 10), digit t.year,
   digit (t.month / 10), digit t.month,
   digit (t.day / 10), digit t.day,
   '_',
   digit (t.hour / 10), digit t.hour,
   digit (t.minute / 10), digit t.minute,
   digit (t.second / 10), digit t.second]

/-- Python `datetime.now().strftime("%Y%m%d_%H%M%S")`. -/
def strftime (t : DateTime) : String := String.mk (strftimeChars t)

/-- Shape of a `yyyymmdd_HHMMSS` timestamp: 8 digits, `_`, 6 digits. -/
def timestampShape : List Char → Bool
  | [a, b, c, d, e, f, g, h, u, i, j, k, l, m, n] =>
    (u == '_') && ([a, b, c, d, e, f, g, h, i, j, k, l, m, n].all Char.isDigit)
  | _ => false

/-- A raised Python exception: `str(e)` and `traceback.format_exc()`. -/
structure Exn where
  msg : String
  tb : String
  deriving DecidableEq

/-! ## Environment probes -/

/-- External inputs of `get_system_info`: the current time, hostname,
`tf.__version__`, and the outcomes of reading `/proc/cpuinfo` and
`/proc/meminfo` (content, or the exception text on failure). -/
structure SysEnv where
  nowIso : String
  hostname : String
  tfVersion : String
  cpuinfo : Except String String
  meminfo : Except String String

/-- The `cpu` facet of `get_system_info` from `/proc/cpuinfo` content:
count of `processor`, first `model name` line split at `:`; a model-name
line without `:` raises `IndexError` inside the `try`. -/
def sysCpu (content : String) : Dict :=
  let cpu_count : Int := (pyCount content "processor" : Nat)
  let modelLines := (content.splitOn "\n").filter (fun l => pyContains l "model name")
  match modelLines with
  | [] => [("cores", J.n cpu_count), ("model", J.s "Unknown")]
  | l :: _ =>
    match (l.splitOn ":").get? 1 with
    | some m => [("cores", J.n cpu_count), ("model", J.s m.trim)]
    | none => [("error", J.s "list index out of range")]

/-- Python `int(line[0].split()[1]) if line else 0` for a meminfo field. -/
def memField : List String → Except String Int
  | [] => Except.ok 0
  | l :: _ =>
    match (pySplitWs l).get? 1 with
    | none => Except.error "list index out of range"
    | some w =>
      match pyInt w with
      | some v => Except.ok v
      | none => Except.error ("invalid literal for int() with base 10: '" ++ w ++ "'")

/-- The `memory` facet of `get_system_info` from `/proc/meminfo` content:
`MemTotal` then `MemAvailable`, each `// 1024`. -/
def sysMem (content : String) : Dict :=
  let lines := content.splitOn "\n"
  match memField (lines.filter (fun l => pyContains l "MemTotal")) with
  | Except.error e => [("error", J.s e)]
  | Except.ok tot =>
    match memField (lines.filter (fun l => pyContains l "MemAvailable")) with
    | Except.error e => [("error", J.s e)]
    | Except.ok av =>
      [("total_mb", J.n (Int.fdiv tot 1024)), ("available_mb", J.n (Int.fdiv av 1024))]

/-- Probe `get_system_info()`: base fields, then the `cpu` and `memory` facets,
each `try` block turning any failure into an `error` field of its facet. -/
def get_system_info (env : SysEnv) : Dict :=
  let info : Dict :=
    [("timestamp", J.s env.nowIso),
     ("hostname", J.s env.hostname),
     ("python_version", J.s env.tfVersion)]
  let info := dictSet info "cpu"
    (J.obj (match env.cpuinfo with
            | Except.error e => [("error", J.s e)]
            | Except.ok content => sysCpu content))
  dictSet info "memory"
    (J.obj (match env.meminfo with
            | Except.error e => [("error", J.s e)]
            | Except.ok content => sysMem content))

/-- Probe `get_kubernetes_info()`: environment-variable lookups with defaults;
`envVars` models `os.environ.get`. -/
def get_kubernetes_info (envVars : String → Option String) : Dict :=
  [("pod_name", J.s ((envVars "HOSTNAME").getD "Unknown")),
   ("node_name", J.s ((envVars "KUBERNETES_NODE_NAME").getD "Unknown")),
   ("namespace", J.s ((envVars "KUBERNETES_NAMESPACE").getD "default")),
   ("service_account", J.s ((envVars "KUBERNETES_SERVICE_ACCOUNT").getD "Unknown")),
   ("pod_ip", J.s ((envVars "KUBERNETES_POD_IP").getD "Unknown"))]

/-- External inputs of `get_aws_metadata`: `outerExn` is the exception
text if the import/setup inside the outer `try` fails, and `fetch` gives
each metadata path's response text or the exception raised by
`urllib.request.urlopen`. -/
structure AwsEnv where
  outerExn : Option String
  fetch : String → Except String String

/-- The inner `get_metadata(path)`: a bare `except` maps every failure to
the sentinel string. -/
def aws_get_metadata (env : AwsEnv) (path : String) : String :=
  match env.fetch path with
  | Except.ok s => s
  | Except.error _ => "Unable to fetch"

/-- Probe `get_aws_metadata()`. Note that per-path fetch failures produce the
sentinel value, not an `error` key; the `error` key appears only when the
outer `try` block itself fails. -/
def get_aws_metadata (env : AwsEnv) : Dict :=
  match env.outerExn with
  | some e => [("error", J.s ("AWS metadata unavailable: " ++ e))]
  | none =>
    [("instance_id", J.s (aws_get_metadata env "instance-id")),
     ("instance_type", J.s (aws_get_metadata env "instance-type")),
     ("availability_zone", J.s (aws_get_metadata env "placement/availability-zone")),
     ("region", J.s (aws_get_metadata env "placement/region")),
     ("local_ipv4", J.s (aws_get_metadata env "local-ipv4")),
     ("public_ipv4", J.s (aws_get_metadata env "public-ipv4"))]

/-- External inputs of `get_gpu_info`: TensorFlow device facts, per-GPU
`get_device_details` outcomes (by index), and the `nvidia-smi` subprocess
outcome (exception, or return code plus stdout). -/
structure GpuEnv where
  tfVersion : String
  cudaBuilt : Bool
  gpuAvailable : Bool
  physicalDevices : List String
  gpus : List String
  deviceDetails : Nat → Except String Dict
  smi : Except String (Int × String)

/-- One `nvidia-smi` CSV line: skipped when blank or with fewer than five
`", "`-separated parts. -/
def smiParseLine (line : String) : Option Dict :=
  if line.trim = "" then none
  else
    match line.splitOn ", " with
    | a :: b :: c :: d :: e :: _ =>
      some [("name", J.s a), ("memory_total_mb", J.s b), ("memory_used_mb", J.s c),
            ("utilization_percent", J.s d), ("temperature_c", J.s e)]
    | _ => none

/-- Probe `get_gpu_info()`. On a non-zero `nvidia-smi` return code the
`nvidia_smi` key is simply absent; on a raised exception it holds an
`error` mapping. -/
def get_gpu_info (env : GpuEnv) : Dict :=
  let gpu_info : Dict :=
    [("tensorflow_version", J.s env.tfVersion),
     ("cuda_built", J.b env.cudaBuilt),
     ("gpu_available", J.b env.gpuAvailable),
     ("physical_devices", J.arr (env.physicalDevices.map J.s))]
  let gpu_info := dictSet gpu_info "gpu_count" (J.n (env.gpus.length : Nat))
  let gpu_details := env.gpus.enum.map (fun p =>
    let detail : Dict := [("index", J.n (p.1 : Nat)), ("device", J.s p.2)]
    match env.deviceDetails p.1 with
    | Except.ok d => J.obj (dictSet detail "details" (J.obj d))
    | Except.error e => J.obj (dictSet detail "details" (J.obj [("error", J.s e)])))
  let gpu_info := dictSet gpu_info "gpu_details" (J.arr gpu_details)
  match env.smi with
  | Except.error e => dictSet gpu_info "nvidia_smi" (J.obj [("error", J.s e)])
  | Except.ok rcOut =>
    if rcOut.1 = 0 then
      dictSet gpu_info "nvidia_smi"
        (J.arr (((rcOut.2.trim.splitOn "\n").filterMap smiParseLine).map J.obj))
    else gpu_info

/-- External inputs of `get_resource_limits`: the outcomes of reading the
cgroup cpu quota, cpu period and memory limit files. -/
structure ResEnv where
  cpuQuota : Except String String
  cpuPeriod : Except String String
  memLimit : Except String String

/-- Python `int(f.read().strip())` on a file-read outcome. -/
def readInt (r : Except String String) : Except String Int :=
  match r with
  | Except.error e => Except.error e
  | Except.ok s =>
    match pyInt s.trim with
    | some v => Except.ok v
    | none => Except.error ("invalid literal for int() with base 10: '" ++ s.trim ++ "'")

/-- Probe `get_resource_limits()`: the cpu `try` block (quota read, period read,
float division guarded by `quota > 0`, with `ZeroDivisionError` when the
period is zero) and the memory `try` block. -/
def get_resource_limits (env : ResEnv) : Dict :=
  let limits : Dict := []
  let limits :=
    match readInt env.cpuQuota with
    | Except.error e => dictSet limits "cpu_limit" (J.obj [("error", J.s e)])
    | Except.ok quota =>
      match readInt env.cpuPeriod with
      | Except.error e => dictSet limits "cpu_limit" (J.obj [("error", J.s e)])
      | Except.ok period =>
        if quota > 0 then
          if period = 0 then dictSet limits "cpu_limit" (J.obj [("error", J.s "division by zero")])
          else dictSet limits "cpu_limit_cores" (J.quot quota period)
        else dictSet limits "cpu_limit_cores" (J.s "unlimited")
  match readInt env.memLimit with
  | Except.error e => dictSet limits "memory_limit" (J.obj [("error", J.s e)])
  | Except.ok m =>
    if m < 9223372036854775807 then
      dictSet limits "memory_limit_mb" (J.n (Int.fdiv m (1024 * 1024)))
    else dictSet limits "memory_limit_mb" (J.s "unlimited")

/-! ## Report sink -/

/-- Constant `S3_BUCKET` from the script. -/
def S3_BUCKET : String := "volcano-akashplay"

/-- The `logs` key root (the script's second S3 configuration constant). -/
def S3_LOGS_FOLDER : String := "logs"

/-- A boto3 S3 client: `put` models `put_object`, receiving the bucket,
the key, and the document whose serialization is the body; its outcome is
success or a raised exception's text. -/
structure S3Client where
  put : String → String → Dict → Except String Unit

/-- The object key `f"{S3_LOGS_PREFIX}/{filename}"`. -/
def s3_key_of (filename : String) : String := S3_LOGS_FOLDER ++ "/" ++ filename

/-- Sink `upload_to_s3(s3_client, data, filename)`: with no client, or when
`put_object` raises, write `data` to the local file `filename` and return
`False`; on remote success return `True`.  The return type `Bool × FS`
reflects that the function itself never raises. -/
def upload_to_s3 (s3_client : Option S3Client) (data : Dict) (filename : String)
    (fs : FS) : Bool × FS :=
  match s3_client with
  | none => (false, fsWrite fs filename data)
  | some c =>
    match c.put S3_BUCKET (s3_key_of filename) data with
    | Except.ok _ => (true, fs)
    | Except.error _ => (false, fsWrite fs filename data)

/-! ## Training runner -/

/-- Outcome of the `try` block of `run_training`, as fixed by the external
framework: an exception before `device_used` is recorded (data generation,
model build, compile, device listing), an exception raised by `model.fit`,
or a completed fit with its per-epoch loss history (losses as opaque
codes). -/
inductive FitOutcome where
  | preExn (e : Exn)
  | fitExn (e : Exn)
  | ok (losses : List Int)
  deriving DecidableEq

/-- External inputs of `run_training`: the two `datetime.now()` readings,
GPU presence, the fit outcome, and the traceback text that
`traceback.format_exc()` would produce for the `IndexError` raised by
`history[-1]` on an empty history. -/
structure TrainEnv where
  start_time : String
  end_time : String
  gpuPresent : Bool
  fit : FitOutcome
  indexTb : String
  deriving DecidableEq

/-- The `training_log` dict literal at the top of `run_training`. -/
def initialTrainingLog (env : TrainEnv) : Dict :=
  [("status", J.s "started"),
   ("start_time", J.s env.start_time),
   ("dataset", J.obj [("samples", J.n 10000), ("features", J.n 10), ("target_shape", J.n 1)]),
   ("model", J.obj [("layers", J.arr
      [J.obj [("type", J.s "Dense"), ("units", J.n 64), ("activation", J.s "relu")],
       J.obj [("type", J.s "Dense"), ("units", J.n 64), ("activation", J.s "relu")],
       J.obj [("type", J.s "Dense"), ("units", J.n 1), ("activation", J.s "linear")]])]),
   ("training_config", J.obj
      [("optimizer", J.s "adam"), ("loss", J.s "mse"),
       ("epochs", J.n 5), ("batch_size", J.n 64)])]

/-- Python `'/GPU:0' if tf.config.list_physical_devices('GPU') else '/CPU:0'`. -/
def deviceName (gpuPresent : Bool) : String :=
  if gpuPresent then "/GPU:0" else "/CPU:0"

/-- The `training_log.update({...})` of the `except` branch. -/
def failUpdate (log : Dict) (e : Exn) (endTime : String) : Dict :=
  dictUpdate log
    [("status", J.s "failed"), ("end_time", J.s endTime),
     ("error", J.s e.msg), ("traceback", J.s e.tb)]

/-- Runner `run_training()`.  A normal return carries the success log; a raised
exception carries `str(e)`/`format_exc()` together with the failed log the
function updated in place before re-raising (in Python that log is not
observable by the caller; it travels in the error value here only so its
contents can be stated). -/
def run_training (env : TrainEnv) : Except (Exn × Dict) Dict :=
  let training_log := initialTrainingLog env
  match env.fit with
  | FitOutcome.preExn e => Except.error (e, failUpdate training_log e env.end_time)
  | FitOutcome.fitExn e =>
    let log1 := dictSet training_log "device_used" (J.s (deviceName env.gpuPresent))
    Except.error (e, failUpdate log1 e env.end_time)
  | FitOutcome.ok losses =>
    let log1 := dictSet training_log "device_used" (J.s (deviceName env.gpuPresent))
    match losses.getLast? with
    | none =>
      let e : Exn := ⟨"list index out of range", env.indexTb⟩
      Except.error (e, failUpdate log1 e env.end_time)
    | some last =>
      Except.ok (dictUpdate log1
        [("status", J.s "success"),
         ("end_time", J.s env.end_time),
         ("final_loss", J.n last),
         ("loss_history", J.arr (losses.map J.n)),
         ("total_epochs_completed", J.n (losses.length : Nat))])

/-! ## Orchestrator -/

/-- External inputs of `main`: the `uuid.uuid4()` string, the timestamp
instant, the `get_s3_client()` outcome, the probe inputs, the training
inputs, and the `datetime.now()` reading of `main`'s `except` handler. -/
structure MainEnv where
  uuid : String
  now : DateTime
  s3Client : Option S3Client
  sys : SysEnv
  k8s : String → Option String
  aws : AwsEnv
  gpu : GpuEnv
  res : ResEnv
  train : TrainEnv
  mainEndTime : String

/-- Setup `get_s3_client()`: boto3 either yields a client or the `except`
branch returns `None`; the outcome is an input of the run. -/
def get_s3_client (env : MainEnv) : Option S3Client := env.s3Client

/-- Python `str(uuid.uuid4())[:8]`. -/
def run_id8 (uuid : String) : String := String.mk (uuid.data.take 8)

/-- Python `f"volcano_training_{tag}_{timestamp}_{run_id}.json"`. -/
def mkFilename (tag timestamp run_id : String) : String :=
  "volcano_training_" ++ tag ++ "_" ++ timestamp ++ "_" ++ run_id ++ ".json"

/-- The `log_data` dict assembled before the `try` block of `main`. -/
def mainLogData (env : MainEnv) : Dict :=
  [("run_id", J.s (run_id8 env.uuid)),
   ("job_type", J.s "volcano_tensorflow_training"),
   ("system_info", J.obj (get_system_info env.sys)),
   ("kubernetes_info", J.obj (get_kubernetes_info env.k8s)),
   ("aws_metadata", J.obj (get_aws_metadata env.aws)),
   ("gpu_info", J.obj (get_gpu_info env.gpu)),
   ("resource_limits", J.obj (get_resource_limits env.res))]

/-- The `training_results` dict that `main`'s `except` handler builds
from the caught exception (note: it does not reuse the log built inside
`run_training`). -/
def mainFailDict (env : MainEnv) (e : Exn) : Dict :=
  [("status", J.s "failed"),
   ("error", J.s e.msg),
   ("traceback", J.s e.tb),
   ("end_time", J.s env.mainEndTime)]

/-- What one `main` invocation did: whether it returned or re-raised, the
final filesystem, every `upload_to_s3` invocation in order (filename and
document), and the final value of `log_data`. -/
structure MainResult where
  outcome : Except Exn Unit
  fs : FS
  uploads : List (String × Dict)
  report : Dict

/-- Orchestrator `main()`: assemble `log_data`, run training; on success append the
results and upload under a `success` filename; on exception append a
fresh failed dict, upload under a `failed` filename, and re-raise (the
`error` outcome, which makes the process exit non-zero). -/
def mainRun (env : MainEnv) (fs0 : FS) : MainResult :=
  let run_id := run_id8 env.uuid
  let timestamp := strftime env.now
  let s3_client := get_s3_client env
  let log_data := mainLogData env
  match run_training env.train with
  | Except.ok training_results =>
    let log1 := dictSet log_data "training_results" (J.obj training_results)
    let filename := mkFilename "success" timestamp run_id
    let r := upload_to_s3 s3_client log1 filename fs0
    ⟨Except.ok (), r.2, [(filename, log1)], log1⟩
  | Except.error p =>
    let log1 := dictSet log_data "training_results" (J.obj (mainFailDict env p.1))
    let filename := mkFilename "failed" timestamp run_id
    let r := upload_to_s3 s3_client log1 filename fs0
    ⟨Except.error p.1, r.2, [(filename, log1)], log1⟩

/-- Tag `"success"` or `"failed"` according to the training step alone. -/
def trainTag (t : TrainEnv) : String :=
  match run_training t with
  | Except.ok _ => "success"
  | Except.error _ => "failed"

/-! ## Derived characterizations and concrete runs -/

/-- The fully evaluated dict returned by `run_training` on a completed
fit with history `losses` ending in `last`. -/
def successLog (env : TrainEnv) (losses : List Int) (last : Int) : Dict :=
  [("status", J.s "success"),
   ("start_time", J.s env.start_time),
   ("dataset", J.obj [("samples", J.n 10000), ("features", J.n 10), ("target_shape", J.n 1)]),
   ("model", J.obj [("layers", J.arr
      [J.obj [("type", J.s "Dense"), ("units", J.n 64), ("activation", J.s "relu")],
       J.obj [("type", J.s "Dense"), ("units", J.n 64), ("activation", J.s "relu")],
       J.obj [("type", J.s "Dense"), ("units", J.n 1), ("activation", J.s "linear")]])]),
   ("training_config", J.obj
      [("optimizer", J.s "adam"), ("loss", J.s "mse"),
       ("epochs", J.n 5), ("batch_size", J.n 64)]),
   ("device_used", J.s (deviceName env.gpuPresent)),
   ("end_time", J.s env.end_time),
   ("final_loss", J.n last),
   ("loss_history", J.arr (losses.map J.n)),
   ("total_epochs_completed", J.n (losses.length : Nat))]

/-- The filename convention
`volcano_training_{success|failed}_{yyyymmdd_HHMMSS}_{8-char-run-id}.json`. -/
def validFilename (s : String) : Prop :=
  ∃ tag ts rid : String,
    (tag = "success" ∨ tag = "failed") ∧
    timestampShape ts.data = true ∧
    rid.length = 8 ∧
    s = "volcano_training_" ++ tag ++ "_" ++ ts ++ "_" ++ rid ++ ".json"

/-- A concrete probe input set: both `/proc` reads fail. -/
def sysEnv0 : SysEnv :=
  ⟨"2026-01-01T00:00:00", "host", "2.15.0",
   Except.error "cpuinfo missing", Except.error "meminfo missing"⟩

/-- A concrete `os.environ` with no variables set. -/
def k8s0 : String → Option String := fun _ => none

/-- A concrete AWS metadata input set with every fetch failing. -/
def awsDown : AwsEnv := ⟨none, fun _ => Except.error "urlopen timed out"⟩

/-- A concrete GPU probe input set: no GPUs, `nvidia-smi` missing. -/
def gpuEnv0 : GpuEnv :=
  ⟨"2.15.0", false, false, ["/physical_device:CPU:0"], [],
   fun _ => Except.error "n/a", Except.error "nvidia-smi not found"⟩

/-- A concrete cgroup input set: all three reads fail. -/
def resEnv0 : ResEnv :=
  ⟨Except.error "no cgroup", Except.error "no cgroup", Except.error "no cgroup"⟩

/-- A concrete instant: 2026-01-02 03:04:05. -/
def dt0 : DateTime := ⟨2026, 1, 2, 3, 4, 5⟩

/-- A concrete training run that completes with a 3-epoch history. -/
def trainOk : TrainEnv := ⟨"T0", "T1", false, FitOutcome.ok [9, 7, 5], "idxtb"⟩

/-- A concrete training run whose fit raises `ValueError("boom")`. -/
def trainBoom : TrainEnv := ⟨"T0", "T1", false, FitOutcome.fitExn ⟨"boom", "tb"⟩, "idxtb"⟩

/-- A concrete successful run with no S3 client. -/
def envOk : MainEnv :=
  ⟨"aaaaaaaa-bbbb-cccc-dddd-eeeeeeeeeeee", dt0, none,
   sysEnv0, k8s0, awsDown, gpuEnv0, resEnv0, trainOk, "T2"⟩

/-- The same run with a uuid differing only after its first 8 characters. -/
def envOk2 : MainEnv :=
  ⟨"aaaaaaaa-1111-2222-3333-444444444444", dt0, none,
   sysEnv0, k8s0, awsDown, gpuEnv0, resEnv0, trainOk, "T2"⟩

/-- The same run with a uuid differing in its first 8 characters. -/
def envOkB : MainEnv :=
  ⟨"bbbbbbbb-bbbb-cccc-dddd-eeeeeeeeeeee", dt0, none,
   sysEnv0, k8s0, awsDown, gpuEnv0, resEnv0, trainOk, "T2"⟩

/-- A concrete failing run with no S3 client. -/
def envBoom : MainEnv :=
  ⟨"aaaaaaaa-bbbb-cccc-dddd-eeeeeeeeeeee", dt0, none,
   sysEnv0, k8s0, awsDown, gpuEnv0, resEnv0, trainBoom, "T2"⟩

/-- A concrete S3 client whose `put_object` always raises. -/
def cFail : S3Client := ⟨fun _ _ _ => Except.error "AccessDenied"⟩

/-! ## Helper lemmas -/

lemma digitChar_isDigit : ∀ m, m < 10 → (Nat.digitChar m).isDigit = true := by decide

lemma digit_isDigit (n : Nat) : (digit n).isDigit = true :=
  digitChar_isDigit (n % 10) (Nat.mod_lt _ (by omega))

lemma strftime_shape (t : DateTime) : timestampShape (strftime t).data = true := by
  simp [timestampShape, strftime, strftimeChars, List.all, digit_isDigit]

lemma run_id8_length (u : String) (h : u.length = 36) : (run_id8 u).length = 8 := by
  have hd : u.data.length = 36 := h
  simp [run_id8, String.length_mk, hd]

lemma run_training_eval_ok (env : TrainEnv) (losses : List Int) (last : Int)
    (hf : env.fit = FitOutcome.ok losses) (hl : losses.getLast? = some last) :
    run_training env = Except.ok (successLog env losses last) := by
  unfold run_training
  rw [hf]
  simp only [hl]
  rfl

lemma run_training_ok (env : TrainEnv) (log : Dict)
    (h : run_training env = Except.ok log) :
    ∃ losses last, env.fit = FitOutcome.ok losses ∧ losses.getLast? = some last ∧
      log = successLog env losses last := by
  cases hf : env.fit with
  | preExn e => simp [run_training, hf] at h
  | fitExn e => simp [run_training, hf] at h
  | ok losses =>
    cases hl : losses.getLast? with
    | none => simp [run_training, hf, hl] at h
    | some last =>
      refine ⟨losses, last, rfl, hl, ?_⟩
      have he := run_training_eval_ok env losses last hf hl
      rw [h] at he
      exact Except.ok.inj he

lemma mainRun_uploads (env : MainEnv) (fs : FS) :
    (mainRun env fs).uploads =
      [(mkFilename (trainTag env.train) (strftime env.now) (run_id8 env.uuid),
        (mainRun env fs).report)] := by
  unfold mainRun trainTag
  cases h : run_training env.train <;> simp [h]

lemma lookup_set_training (env : MainEnv) (v : J) :
    (dictSet (mainLogData env) "training_results" v).lookup "training_results" = some v := rfl

lemma mainRun_error (env : MainEnv) (fs : FS) (p : Exn × Dict)
    (h : run_training env.train = Except.error p) :
    (mainRun env fs).outcome = Except.error p.1 ∧
    (mainRun env fs).report = dictSet (mainLogData env) "training_results" (J.obj (mainFailDict env p.1)) := by
  unfold mainRun
  simp [h]

lemma mainRun_ok (env : MainEnv) (fs : FS) (tr : Dict)
    (h : run_training env.train = Except.ok tr) :
    (mainRun env fs).outcome = Except.ok () ∧
    (mainRun env fs).report = dictSet (mainLogData env) "training_results" (J.obj tr) := by
  unfold mainRun
  simp [h]

lemma mkFilename_data (tag ts rid : String) :
    (mkFilename tag ts rid).data =
      ("volcano_training_".data ++ tag.data ++ "_".data ++ ts.data ++ "_".data) ++
        (rid.data ++ ".json".data) := by
  simp [mkFilename, String.data_append, List.append_assoc]

lemma mkFilename_inj_runId (tag1 tag2 ts1 ts2 rid1 rid2 : String)
    (h8a : rid1.length = 8) (h8b : rid2.length = 8)
    (h : mkFilename tag1 ts1 rid1 = mkFilename tag2 ts2 rid2) : rid1 = rid2 := by
  have hfd : (mkFilename tag1 ts1 rid1).data = (mkFilename tag2 ts2 rid2).data := by rw [h]
  rw [mkFilename_data, mkFilename_data] at hfd
  have e1 : rid1.data.length = 8 := h8a
  have e2 : rid2.data.length = 8 := h8b
  have hlen : (rid1.data ++ ".json".data).length = (rid2.data ++ ".json".data).length := by
    simp [e1, e2]
  exact String.ext (List.append_cancel_right (List.append_inj_right' hfd hlen))

/-! ## Claims -/

/-- Claim C1: every training call that returns normally yields a document
with `status == "success"`, `total_epochs_completed` equal to the length
of `loss_history`, and `final_loss` equal to the last element of
`loss_history`. -/
theorem C1_run_training_success_fields (env : TrainEnv) (log : Dict)
    (h : run_training env = Except.ok log) :
    log.lookup "status" = some (J.s "success") ∧
    ∃ hist : List J,
      log.lookup "loss_history" = some (J.arr hist) ∧
      log.lookup "total_epochs_completed" = some (J.n (hist.length : Nat)) ∧
      ∃ fl : J, hist.getLast? = some fl ∧ log.lookup "final_loss" = some fl := by
  obtain ⟨losses, last, hf, hl, rfl⟩ := run_training_ok env log h
  refine ⟨rfl, losses.map J.n, rfl, ?_, J.n last, ?_, rfl⟩
  · simp [successLog, List.lookup]
  · simp [List.getLast?_map, hl]

/-- Claim C1 witness at a concrete successful run. -/
theorem C1_witness :
    (successLog trainOk [9, 7, 5] 5).lookup "status" = some (J.s "success") :=
  (C1_run_training_success_fields trainOk (successLog trainOk [9, 7, 5] 5) rfl).1

/-- Claim C2: when the training step raises, the run report's
`training_results` has `status == "failed"` and `error` equal to the
exception's message, and `main` re-raises the original exception (the
`Except.error` outcome, which makes the hosting process exit non-zero) —
for every S3 client behaviour, i.e. regardless of whether the failure
report was uploaded or only written locally. -/
theorem C2_training_failure_recorded_and_reraised (env : MainEnv) (fs : FS)
    (p : Exn × Dict) (h : run_training env.train = Except.error p) :
    (mainRun env fs).outcome = Except.error p.1 ∧
    (mainRun env fs).report.lookup "training_results" = some (J.obj (mainFailDict env p.1)) ∧
    (mainFailDict env p.1).lookup "status" = some (J.s "failed") ∧
    (mainFailDict env p.1).lookup "error" = some (J.s p.1.msg) := by
  obtain ⟨ho, hr⟩ := mainRun_error env fs p h
  exact ⟨ho, by rw [hr]; exact lookup_set_training env _, rfl, rfl⟩

/-- Claim C2 witness at a concrete run whose fit raises
`ValueError("boom")`. -/
theorem C2_witness : (mainRun envBoom []).outcome = Except.error ⟨"boom", "tb"⟩ :=
  (C2_training_failure_recorded_and_reraised envBoom []
    (⟨"boom", "tb"⟩,
     failUpdate (dictSet (initialTrainingLog trainBoom) "device_used"
       (J.s (deviceName trainBoom.gpuPresent))) ⟨"boom", "tb"⟩ trainBoom.end_time)
    rfl).1

/-- Claim C3: `upload_to_s3` never raises — for every client behaviour it
returns a boolean, and on every failure path (including a client whose
`put_object` raises) it returns `False` after writing the document to the
local fallback file. -/
theorem C3_upload_absorbs_client_failures (data : Dict) (filename : String) (fs : FS) :
    (∀ cl : Option S3Client,
       upload_to_s3 cl data filename fs = (true, fs) ∨
       upload_to_s3 cl data filename fs = (false, fsWrite fs filename data)) ∧
    (∀ (c : S3Client) (e : String),
       c.put S3_BUCKET (s3_key_of filename) data = Except.error e →
       upload_to_s3 (some c) data filename fs = (false, fsWrite fs filename data) ∧
       fsRead (upload_to_s3 (some c) data filename fs).2 filename = some data) := by
  constructor
  · intro cl
    cases cl with
    | none => exact Or.inr rfl
    | some c =>
      cases hp : c.put S3_BUCKET (s3_key_of filename) data with
      | ok _ => exact Or.inl (by simp [upload_to_s3, hp])
      | error e => exact Or.inr (by simp [upload_to_s3, hp])
  · intro c e hp
    refine ⟨by simp [upload_to_s3, hp], ?_⟩
    simp [upload_to_s3, hp, fsRead, fsWrite, List.lookup]

/-- Claim C3 witness at a concrete always-raising client. -/
theorem C3_witness :
    upload_to_s3 (some cFail) [] "report.json" [] =
      (false, fsWrite [] "report.json" []) :=
  ((C3_upload_absorbs_client_failures [] "report.json" []).2 cFail "AccessDenied" rfl).1

/-- Claim C4: with no storage client, `upload_to_s3` returns `False` and
afterwards the local file with exactly the requested name holds the input
document. -/
theorem C4_upload_no_client_writes_locally (data : Dict) (filename : String) (fs : FS) :
    upload_to_s3 none data filename fs = (false, fsWrite fs filename data) ∧
    fsRead (upload_to_s3 none data filename fs).2 filename = some data := by
  refine ⟨rfl, ?_⟩
  simp [upload_to_s3, fsRead, fsWrite, List.lookup]

/-- Claim C5: the single filename handed to the report sink is a function
of the training step's success/failure tag (plus the timestamp and run
id) only — the right-hand side mentions neither the S3 client nor the
upload outcome — and it matches the convention
`volcano_training_{success|failed}_{yyyymmdd_HHMMSS}_{8-char-run-id}.json`
whenever the uuid has its canonical 36-character form. -/
theorem C5_filename_from_training_outcome (env : MainEnv) (fs : FS)
    (h : env.uuid.length = 36) :
    (mainRun env fs).uploads.map Prod.fst =
      [mkFilename (trainTag env.train) (strftime env.now) (run_id8 env.uuid)] ∧
    validFilename (mkFilename (trainTag env.train) (strftime env.now) (run_id8 env.uuid)) := by
  constructor
  · rw [mainRun_uploads env fs]; rfl
  · refine ⟨trainTag env.train, strftime env.now, run_id8 env.uuid, ?_,
      strftime_shape env.now, run_id8_length env.uuid h, rfl⟩
    unfold trainTag
    cases run_training env.train with
    | ok _ => exact Or.inl rfl
    | error _ => exact Or.inr rfl

/-- Claim C5 witness at a concrete run. -/
theorem C5_witness :
    (mainRun envOk []).uploads.map Prod.fst =
      [mkFilename (trainTag envOk.train) (strftime envOk.now) (run_id8 envOk.uuid)] :=
  (C5_filename_from_training_outcome envOk [] (by decide)).1

/-- Claim C6 counterexample: with the metadata endpoint unreachable, the
AWS probe's mapping has no `error` key at all — every field holds the
sentinel string `"Unable to fetch"` — refuting "every probe returns a
mapping containing an `error` key" for simulated read failures. -/
theorem C6_counterexample :
    (get_aws_metadata awsDown).lookup "error" = none ∧
    get_aws_metadata awsDown =
      [("instance_id", J.s "Unable to fetch"),
       ("instance_type", J.s "Unable to fetch"),
       ("availability_zone", J.s "Unable to fetch"),
       ("region", J.s "Unable to fetch"),
       ("local_ipv4", J.s "Unable to fetch"),
       ("public_ipv4", J.s "Unable to fetch")] :=
  ⟨rfl, rfl⟩

/-- Claim C6 (amended): no probe ever raises (each is a total function
into a mapping), and read failures are recorded inside the returned
mapping: as an `error` field of the affected facet for the system, GPU
and resource-limit probes, and for the AWS probe as an `error` key only
when the whole block fails, while an individual metadata fetch failure
yields the sentinel value `"Unable to fetch"` and no `error` key. -/
theorem C6_amended_probe_failures_recorded :
    (∀ (env : SysEnv) (e : String), env.cpuinfo = Except.error e →
       (get_system_info env).lookup "cpu" = some (J.obj [("error", J.s e)])) ∧
    (∀ (env : SysEnv) (e : String), env.meminfo = Except.error e →
       (get_system_info env).lookup "memory" = some (J.obj [("error", J.s e)])) ∧
    (∀ (env : AwsEnv) (path e : String), env.outerExn = none →
       env.fetch path = Except.error e →
       aws_get_metadata env path = "Unable to fetch" ∧
       (get_aws_metadata env).lookup "error" = none) ∧
    (∀ (env : AwsEnv) (e : String), env.outerExn = some e →
       (get_aws_metadata env).lookup "error" =
         some (J.s ("AWS metadata unavailable: " ++ e))) ∧
    (∀ (env : GpuEnv) (e : String), env.smi = Except.error e →
       (get_gpu_info env).lookup "nvidia_smi" = some (J.obj [("error", J.s e)])) ∧
    (∀ (env : ResEnv) (e : String), env.cpuQuota = Except.error e →
       (get_resource_limits env).lookup "cpu_limit" = some (J.obj [("error", J.s e)])) ∧
    (∀ (env : ResEnv) (e : String), env.memLimit = Except.error e →
       (get_resource_limits env).lookup "memory_limit" = some (J.obj [("error", J.s e)])) := by
  refine ⟨?_, ?_, ?_, ?_, ?_, ?_, ?_⟩
  · intro env e h
    cases hm : env.meminfo <;>
      simp [get_system_info, h, hm, dictSet, List.lookup]
  · intro env e h
    cases hc : env.cpuinfo <;>
      simp [get_system_info, h, hc, dictSet, List.lookup]
  · intro env path e hout hp
    refine ⟨by simp [aws_get_metadata, hp], by simp [get_aws_metadata, hout, List.lookup]⟩
  · intro env e h
    simp [get_aws_metadata, h, List.lookup]
  · intro env e h
    simp [get_gpu_info, h, dictSet, List.lookup]
  · intro env e h
    have hq : readInt env.cpuQuota = Except.error e := by simp [readInt, h]
    cases hm : readInt env.memLimit with
    | error e2 => simp [get_resource_limits, hq, hm, dictSet, List.lookup]
    | ok m =>
      by_cases hlt : m < 9223372036854775807 <;>
        simp [get_resource_limits, hq, hm, hlt, dictSet, List.lookup]
  · intro env e h
    have hm : readInt env.memLimit = Except.error e := by simp [readInt, h]
    cases hq : readInt env.cpuQuota with
    | error e2 => simp [get_resource_limits, hq, hm, dictSet, List.lookup]
    | ok q =>
      by_cases hpos : q > 0
      · cases hp : readInt env.cpuPeriod with
        | error e3 => simp [get_resource_limits, hq, hp, hm, dictSet, List.lookup]
        | ok pd =>
          by_cases hz : pd = 0 <;>
            simp [get_resource_limits, hq, hp, hm, hpos, hz, dictSet, List.lookup]
      · cases hp : readInt env.cpuPeriod with
        | error e3 => simp [get_resource_limits, hq, hp, hm, dictSet, List.lookup]
        | ok pd => simp [get_resource_limits, hq, hp, hm, hpos, dictSet, List.lookup]

/-- Claim C6 witness: a concrete cpuinfo read failure recorded in the
`cpu` facet. -/
theorem C6_witness :
    (get_system_info sysEnv0).lookup "cpu" =
      some (J.obj [("error", J.s "cpuinfo missing")]) :=
  C6_amended_probe_failures_recorded.1 sysEnv0 "cpuinfo missing" rfl

/-- Claim C7: every run hands the report sink exactly one document — the
`uploads` trace of `main` is a singleton — and the document it receives
is the final value of `log_data`, i.e. the report is not mutated after
the upload. -/
theorem C7_report_uploaded_exactly_once (env : MainEnv) (fs : FS) :
    ∃ filename, (mainRun env fs).uploads = [(filename, (mainRun env fs).report)] :=
  ⟨mkFilename (trainTag env.train) (strftime env.now) (run_id8 env.uuid),
   mainRun_uploads env fs⟩

/-- Claim C8 counterexample: two distinct runs (distinct uuid draws) at
the same wall-clock second whose report filenames collide, because
truncating uuids to 8 characters does not preserve distinctness. -/
theorem C8_counterexample :
    envOk.uuid ≠ envOk2.uuid ∧
    strftime envOk.now = strftime envOk2.now ∧
    (mainRun envOk []).uploads.map Prod.fst =
      (mainRun envOk2 []).uploads.map Prod.fst := by
  refine ⟨by decide, rfl, ?_⟩
  rfl

/-- Claim C8 (amended): if the two runs' 8-character run ids are
distinct, their report filenames are distinct, even at the same
wall-clock second and regardless of either run's outcome. -/
theorem C8_amended_distinct_run_ids_distinct_filenames
    (e1 e2 : MainEnv) (fs1 fs2 : FS) (fn1 fn2 : String)
    (h1 : e1.uuid.length = 36) (h2 : e2.uuid.length = 36)
    (hne : run_id8 e1.uuid ≠ run_id8 e2.uuid)
    (hm1 : fn1 ∈ (mainRun e1 fs1).uploads.map Prod.fst)
    (hm2 : fn2 ∈ (mainRun e2 fs2).uploads.map Prod.fst) :
    fn1 ≠ fn2 := by
  rw [mainRun_uploads e1 fs1] at hm1
  rw [mainRun_uploads e2 fs2] at hm2
  simp only [List.map, List.mem_singleton] at hm1 hm2
  subst hm1; subst hm2
  intro hc
  exact hne (mkFilename_inj_runId _ _ _ _ _ _
    (run_id8_length e1.uuid h1) (run_id8_length e2.uuid h2) hc)

/-- Claim C8 witness: concrete runs with distinct run ids yield distinct
filenames. -/
theorem C8_witness :
    mkFilename (trainTag envOk.train) (strftime envOk.now) (run_id8 envOk.uuid) ≠
      mkFilename (trainTag envOkB.train) (strftime envOkB.now) (run_id8 envOkB.uuid) :=
  C8_amended_distinct_run_ids_distinct_filenames envOk envOkB [] [] _ _
    (by decide) (by decide) (by decide)
    (by rw [mainRun_uploads]; exact List.mem_singleton.mpr rfl)
    (by rw [mainRun_uploads]; exact List.mem_singleton.mpr rfl)

/-- Claim C9 counterexample: on a concrete failed run the persisted
`training_results` is exactly the four-field dict built in `main`'s
handler — it contains no `start_time`, `dataset`, `model` or
`training_config`, contradicting the claim that those fields are present
whether training succeeds or fails. -/
theorem C9_counterexample :
    (mainRun envBoom []).report.lookup "training_results" =
      some (J.obj [("status", J.s "failed"), ("error", J.s "boom"),
                   ("traceback", J.s "tb"), ("end_time", J.s "T2")]) ∧
    ([("status", J.s "failed"), ("error", J.s "boom"),
      ("traceback", J.s "tb"), ("end_time", J.s "T2")] : Dict).lookup "start_time" = none ∧
    ([("status", J.s "failed"), ("error", J.s "boom"),
      ("traceback", J.s "tb"), ("end_time", J.s "T2")] : Dict).lookup "dataset" = none ∧
    ([("status", J.s "failed"), ("error", J.s "boom"),
      ("traceback", J.s "tb"), ("end_time", J.s "T2")] : Dict).lookup "model" = none ∧
    ([("status", J.s "failed"), ("error", J.s "boom"),
      ("traceback", J.s "tb"), ("end_time", J.s "T2")] : Dict).lookup "training_config" = none :=
  ⟨rfl, rfl, rfl, rfl, rfl⟩

/-- Claim C9 (amended): on success the persisted `training_results`
carries `status`, `start_time`, `end_time`, `dataset`, `model`,
`training_config`, `final_loss`, `loss_history` and
`total_epochs_completed`; on failure it carries only `status`, `error`,
`traceback` and `end_time` — in particular no `start_time`, `dataset`,
`model` or `training_config`. -/
theorem C9_amended_training_results_fields (env : MainEnv) (fs : FS) :
    (∀ tr : Dict, run_training env.train = Except.ok tr →
       (mainRun env fs).report.lookup "training_results" = some (J.obj tr) ∧
       (tr.lookup "status").isSome = true ∧
       (tr.lookup "start_time").isSome = true ∧
       (tr.lookup "end_time").isSome = true ∧
       (tr.lookup "dataset").isSome = true ∧
       (tr.lookup "model").isSome = true ∧
       (tr.lookup "training_config").isSome = true ∧
       (tr.lookup "final_loss").isSome = true ∧
       (tr.lookup "loss_history").isSome = true ∧
       (tr.lookup "total_epochs_completed").isSome = true) ∧
    (∀ p : Exn × Dict, run_training env.train = Except.error p →
       (mainRun env fs).report.lookup "training_results" =
         some (J.obj (mainFailDict env p.1)) ∧
       (mainFailDict env p.1).lookup "status" = some (J.s "failed") ∧
       (mainFailDict env p.1).lookup "error" = some (J.s p.1.msg) ∧
       (mainFailDict env p.1).lookup "traceback" = some (J.s p.1.tb) ∧
       (mainFailDict env p.1).lookup "end_time" = some (J.s env.mainEndTime) ∧
       (mainFailDict env p.1).lookup "start_time" = none ∧
       (mainFailDict env p.1).lookup "dataset" = none ∧
       (mainFailDict env p.1).lookup "model" = none ∧
       (mainFailDict env p.1).lookup "training_config" = none) := by
  constructor
  · intro tr h
    obtain ⟨-, hr⟩ := mainRun_ok env fs tr h
    obtain ⟨losses, last, hf, hl, rfl⟩ := run_training_ok env.train tr h
    exact ⟨by rw [hr]; exact lookup_set_training env _,
      rfl, rfl, rfl, rfl, rfl, rfl, rfl, rfl, rfl⟩
  · intro p h
    obtain ⟨-, hr⟩ := mainRun_error env fs p h
    exact ⟨by rw [hr]; exact lookup_set_training env _,
      rfl, rfl, rfl, rfl, rfl, rfl, rfl, rfl⟩

/-- Claim C9 witness at a concrete successful run. -/
theorem C9_witness :
    (mainRun envOk []).report.lookup "training_results" =
      some (J.obj (successLog trainOk [9, 7, 5] 5)) :=
  ((C9_amended_training_results_fields envOk []).1 (successLog trainOk [9, 7, 5] 5) rfl).1

/-- Claim C10: whenever `run_training` returns normally rather than
raising, the returned document's `status` is `"success"` — never
`"started"` or `"failed"`; the failed log it builds internally travels
only with the raised exception. -/
theorem C10_normal_return_is_success (env : TrainEnv) (log : Dict)
    (h : run_training env = Except.ok log) :
    log.lookup "status" = some (J.s "success") ∧
    log.lookup "status" ≠ some (J.s "started") ∧
    log.lookup "status" ≠ some (J.s "failed") := by
  obtain ⟨losses, last, hf, hl, rfl⟩ := run_training_ok env log h
  refine ⟨rfl, ?_, ?_⟩
  · intro hc
    have h2 : J.s "success" = J.s "started" :=
      Option.some.inj (show some (J.s "success") = some (J.s "started") from hc)
    have h3 : "success" = "started" := by injection h2
    exact absurd h3 (by decide)
  · intro hc
    have h2 : J.s "success" = J.s "failed" :=
      Option.some.inj (show some (J.s "success") = some (J.s "failed") from hc)
    have h3 : "success" = "failed" := by injection h2
    exact absurd h3 (by decide)

/-- Claim C10 witness at a concrete successful run. -/
theorem C10_witness :
    (successLog trainOk [9, 7, 5] 5).lookup "status" ≠ some (J.s "failed") :=
  (C10_normal_return_is_success trainOk (successLog trainOk [9, 7, 5] 5) rfl).2.2
